import Mathlib

/-!
# Verification of the lead-gen backend

Shallow embedding of the Python backend of the `lead-gen` repository:
the SQLAlchemy models (`backend/app/database.py`), the Places search
orchestrator (`backend/services/places_api.py`), the query endpoints
(`backend/app/routers/businesses.py`) and the in-memory rate limiter
(`backend/app/rate_limiter.py`).

Conventions of the embedding:
* Python floats (ratings, timestamps) are modelled as rationals `ℚ`;
  machine floating point is not relevant to any of the properties below.
* SQLAlchemy rows become Lean structures; nullable columns become `Option`.
* The database session becomes an explicit `DB` state threaded through the
  functions; `commit` is the point where autoincrement ids are assigned.
* The external Google Maps client becomes an `ApiEnv` of oracle functions
  returning `Except String _` (an `error` models a raised exception).
* Every external call is recorded in a log together with the stored
  monthly usage count at the moment the call is issued, so quota claims
  can be stated about "calls actually used at that moment".
-/

/-- JSON-ish values appearing in serialized dictionaries. -/
inductive JVal where
  | null : JVal
  | str : String → JVal
  | num : ℚ → JVal
  | int : Int → JVal
  | nat : Nat → JVal
  | arr : List String → JVal
deriving DecidableEq, Repr

/-- `JVal` of an optional string (Python `None` ⇒ JSON `null`). -/
def optStr : Option String → JVal
  | none => JVal.null
  | some s => JVal.str s

/-- `JVal` of an optional rational. -/
def optRat : Option ℚ → JVal
  | none => JVal.null
  | some q => JVal.num q

/-- `JVal` of an optional integer. -/
def optInt : Option Int → JVal
  | none => JVal.null
  | some n => JVal.int n

/-- Row of the `businesses` table (`database.py`, class `Business`).
`id` is `Option` because a freshly constructed ORM object has no id until
the session commits.  `business_types` stands for the decoded content of
the JSON string stored in the column (`json.dumps` on write,
`json.loads` on read). -/
structure Business where
  id : Option Nat := none
  place_id : Option String := none
  name : Option String := none
  address : Option String := none
  phone : Option String := none
  website : Option String := none
  rating : Option ℚ := none
  review_count : Option Int := none
  business_types : Option (List String) := none
  latitude : Option ℚ := none
  longitude : Option ℚ := none
  search_id : Option Nat := none
  created_at : Option Nat := none
deriving DecidableEq, Repr

/-- `Business.to_dict` (`database.py` lines 50-65): the JSON dictionary
returned for a business, as an association list in the source's key
order.  Note the source emits no `lead_score` key. -/
def Business.to_dict (b : Business) : List (String × JVal) :=
  [("id", match b.id with | none => JVal.null | some n => JVal.nat n),
   ("place_id", optStr b.place_id),
   ("name", optStr b.name),
   ("address", optStr b.address),
   ("phone", optStr b.phone),
   ("website", optStr b.website),
   ("rating", optRat b.rating),
   ("review_count", optInt b.review_count),
   ("business_types", JVal.arr (b.business_types.getD [])),
   ("latitude", optRat b.latitude),
   ("longitude", optRat b.longitude),
   ("created_at", match b.created_at with | none => JVal.null | some t => JVal.str (toString t))]

/-- Modelled from the spec: `Business.calculate_lead_score`, the lead
scorer (spec §4.3) that `backend/tests/test_lead_scoring.py` exercises
but that is missing from `database.py`: +50 if the website is
absent/empty, +20 if rating ≥ 4.0, +15 if review count ≥ 100, +15 if a
phone is present/non-empty. -/
def Business.calculate_lead_score (b : Business) : Nat :=
  (if b.website.getD "" = "" then 50 else 0) +
  (if b.rating.any (fun r => decide ((4 : ℚ) ≤ r)) then 20 else 0) +
  (if b.review_count.any (fun c => decide ((100 : Int) ≤ c)) then 15 else 0) +
  (if b.phone.getD "" ≠ "" then 15 else 0)

/-- The business constructed in the repository's own test
`test_to_dict_includes_lead_score` (`backend/tests/test_lead_scoring.py`). -/
def leadScoreTestBusiness : Business :=
  { id := some 1, place_id := some "test_place_id", name := some "Test Business",
    website := none, rating := some (9/2 : ℚ), review_count := some 100,
    phone := some "+123", business_types := some [] }

/-- C1: The spec (and the repository's own tests) require `to_dict` to
include a `lead_score` field computed by the lead scorer.  The source's
`to_dict` emits exactly the twelve keys below — `lead_score` is not among
them — and `Business` defines no scoring method at all, even though the
test `test_to_dict_includes_lead_score` expects `lead_score = 100` for
`leadScoreTestBusiness`.  The code contradicts its own tests. -/
theorem C1_to_dict_has_no_lead_score :
    (∀ b : Business, (b.to_dict.map Prod.fst =
      ["id", "place_id", "name", "address", "phone", "website", "rating",
       "review_count", "business_types", "latitude", "longitude", "created_at"])) ∧
    (∀ b : Business, b.to_dict.lookup "lead_score" = none) ∧
    Business.calculate_lead_score leadScoreTestBusiness = 100 ∧
    leadScoreTestBusiness.to_dict.lookup "lead_score" = none := by
  refine ⟨fun b => rfl, fun b => rfl, ?_, rfl⟩
  norm_num [Business.calculate_lead_score, leadScoreTestBusiness, Option.any]
  decide

/-!
## Rate limiter (`backend/app/rate_limiter.py`)

The `requests` map (Python `defaultdict(list)`) is modelled as a total
function from client identifier to timestamp list (absent key ⇒ `[]`).
Timestamps (`time.time()`) are rationals.  Each entry point receives the
request's `X-Forwarded-For` header (`none` when absent) and the socket
address `request.client.host` (`none` when `request.client` is absent),
plus one `now` standing for the wall clock during the call.
-/

/-- State of `RateLimiter` (`rate_limiter.py` lines 14-24). -/
structure RateLimiter where
  requests_per_minute : Nat := 30
  burst_limit : Nat := 10
  requests : String → List ℚ

/-- Outcome of `RateLimiter.check`: pass, or `HTTPException` with a
status code and a `Retry-After` header value. -/
inductive CheckResult where
  | allowed : CheckResult
  | rejected (status retryAfter : Nat) : CheckResult
deriving DecidableEq, Repr

/-- Fallback client identifier: `request.client.host if request.client
else "unknown"` (`rate_limiter.py` line 52 and line 78). -/
def hostIp (host : Option String) : String := host.getD "unknown"

/-- Python `str.strip()`: drop whitespace from both ends (structural on
the character list, so that it evaluates in the kernel). -/
def stripChars (l : List Char) : List Char :=
  ((l.dropWhile Char.isWhitespace).reverse.dropWhile Char.isWhitespace).reverse

/-- Python `s.split(",")[0]`: the characters before the first comma
(`split` always yields a non-empty list, so indexing 0 is total). -/
def firstField (l : List Char) : List Char :=
  l.takeWhile (fun c => decide (c ≠ ','))

/-- `forwarded.split(",")[0].strip()` (`rate_limiter.py` line 50). -/
def forwardedIp (f : String) : String :=
  String.mk (stripChars (firstField f.data))

/-- Client identifier used by `check` (`rate_limiter.py` lines 47-52):
the first comma-separated entry of a non-empty (truthy) `X-Forwarded-For`
header, stripped, else the socket address. -/
def clientIp (xff : Option String) (host : Option String) : String :=
  match xff with
  | some f => if f = "" then hostIp host else forwardedIp f
  | none => hostIp host

/-- `_clean_old_requests`' filtering of one timestamp list
(`rate_limiter.py` line 29). -/
def cleanOldRequests (l : List ℚ) (now : ℚ) (window : ℚ) : List ℚ :=
  l.filter (fun t => decide (now - t < window))

/-- `RateLimiter._clean_old_requests` (lines 26-29): prune one ip's
window to the trailing 60 seconds, in place. -/
def RateLimiter.cleanOld (rl : RateLimiter) (ip : String) (now : ℚ) : RateLimiter :=
  { rl with requests := fun i => if i = ip then cleanOldRequests (rl.requests i) now 60 else rl.requests i }

/-- `RateLimiter._check_burst` (lines 31-35): at least `burst_limit`
entries in the last 5 seconds. -/
def RateLimiter.checkBurst (rl : RateLimiter) (ip : String) (now : ℚ) : Bool :=
  rl.burst_limit ≤ ((rl.requests ip).filter (fun t => decide (now - t < 5))).length

/-- `RateLimiter.check` (lines 37-74): derive the ip, prune, reject on
burst (Retry-After 5), reject on the minute cap (Retry-After 60),
otherwise record the request. -/
def RateLimiter.check (rl : RateLimiter) (xff host : Option String) (now : ℚ) :
    RateLimiter × CheckResult :=
  let ip := clientIp xff host
  let rl := rl.cleanOld ip now
  if rl.checkBurst ip now then
    (rl, CheckResult.rejected 429 5)
  else if rl.requests_per_minute ≤ (rl.requests ip).length then
    (rl, CheckResult.rejected 429 60)
  else
    ({ rl with requests := fun i => if i = ip then rl.requests i ++ [now] else rl.requests i },
     CheckResult.allowed)

/-- Body of `get_remaining`'s JSON response. -/
structure RemainingInfo where
  limit : Nat
  remaining : Int
  reset_in_seconds : Nat
deriving DecidableEq, Repr

/-- `RateLimiter.get_remaining` (lines 76-85).  It receives the whole
request but reads only `request.client.host`; the `X-Forwarded-For`
header (`xff`) is never consulted. -/
def RateLimiter.get_remaining (rl : RateLimiter) (_xff host : Option String) (now : ℚ) :
    RateLimiter × RemainingInfo :=
  let ip := hostIp host
  let rl := rl.cleanOld ip now
  (rl, { limit := rl.requests_per_minute,
         remaining := max 0 ((rl.requests_per_minute : Int) - ((rl.requests ip).length : Int)),
         reset_in_seconds := 60 })

/-- `cleanOld` only rewrites the given ip's list. -/
theorem cleanOld_requests_self (rl : RateLimiter) (ip : String) (now : ℚ) :
    (rl.cleanOld ip now).requests ip = cleanOldRequests (rl.requests ip) now 60 := by
  simp [RateLimiter.cleanOld]

/-- C5: with ten timestamps of the last 5 seconds in the (pruned) window
of the requesting ip, `check` rejects with status 429 and `Retry-After: 5`
and appends no timestamp (the state only gets pruned); this holds with no
assumption on the sustained (60 s) count, i.e. the burst check takes
precedence.  At a later instant `now'` at which fewer than 10 of the
surviving timestamps are within 5 seconds and fewer than 30 are within 60
seconds, the next request is accepted and its timestamp appended. -/
theorem C5_burst_rejected_then_recovers (rl : RateLimiter) (xff host : Option String)
    (now now' : ℚ)
    (hb : rl.burst_limit = 10) (hm : rl.requests_per_minute = 30)
    (h10 : 10 ≤ ((cleanOldRequests (rl.requests (clientIp xff host)) now 60).filter
      (fun t => decide (now - t < 5))).length)
    (hb' : ((cleanOldRequests (cleanOldRequests (rl.requests (clientIp xff host)) now 60) now' 60).filter
      (fun t => decide (now' - t < 5))).length < 10)
    (hs' : (cleanOldRequests (cleanOldRequests (rl.requests (clientIp xff host)) now 60) now' 60).length < 30) :
    (rl.check xff host now).2 = CheckResult.rejected 429 5 ∧
    (rl.check xff host now).1.requests (clientIp xff host) =
      cleanOldRequests (rl.requests (clientIp xff host)) now 60 ∧
    ((rl.check xff host now).1.check xff host now').2 = CheckResult.allowed ∧
    ((rl.check xff host now).1.check xff host now').1.requests (clientIp xff host) =
      cleanOldRequests (cleanOldRequests (rl.requests (clientIp xff host)) now 60) now' 60 ++ [now'] := by
  have hcb : (rl.cleanOld (clientIp xff host) now).checkBurst (clientIp xff host) now = true := by
    simp [RateLimiter.checkBurst, cleanOld_requests_self, RateLimiter.cleanOld, hb]
    exact h10
  have e1 : rl.check xff host now = (rl.cleanOld (clientIp xff host) now, CheckResult.rejected 429 5) := by
    simp [RateLimiter.check, hcb]
  have hcb' : ((rl.cleanOld (clientIp xff host) now).cleanOld (clientIp xff host) now').checkBurst
      (clientIp xff host) now' = false := by
    simp [RateLimiter.checkBurst, cleanOld_requests_self, RateLimiter.cleanOld, hb]
    omega
  have hreq' : (((rl.cleanOld (clientIp xff host) now).cleanOld (clientIp xff host) now').requests
      (clientIp xff host)) = cleanOldRequests (cleanOldRequests (rl.requests (clientIp xff host)) now 60) now' 60 := by
    simp [RateLimiter.cleanOld]
  have hcs' : ¬ ((rl.cleanOld (clientIp xff host) now).cleanOld (clientIp xff host) now').requests_per_minute ≤
      ((((rl.cleanOld (clientIp xff host) now).cleanOld (clientIp xff host) now').requests (clientIp xff host)).length) := by
    rw [hreq']
    simp [RateLimiter.cleanOld, hm]
    omega
  refine ⟨by rw [e1], by rw [e1]; exact cleanOld_requests_self .., ?_, ?_⟩
  · rw [e1]
    simp [RateLimiter.check, hcb', hcs']
  · rw [e1]
    have hcs2 : ¬ ((rl.cleanOld (clientIp xff host) now).cleanOld (clientIp xff host) now').requests_per_minute ≤
        (cleanOldRequests (cleanOldRequests (rl.requests (clientIp xff host)) now 60) now' 60).length := by
      rw [← hreq']; exact hcs'
    simp only [RateLimiter.check]
    simp [hcb', hcs', hcs2, hreq']

/-- A limiter state holding ten timestamps at time 0 for ip `1.2.3.4`. -/
def c5Limiter : RateLimiter :=
  { requests_per_minute := 30, burst_limit := 10,
    requests := fun i => if i = "1.2.3.4" then List.replicate 10 0 else [] }

/-- Witness for C5: ten requests at time 0; the request at time 1 is the
eleventh within the burst window and is rejected with `Retry-After: 5`,
while the request at time 10 (burst window elapsed, ten of thirty
sustained slots used) is accepted and recorded. -/
theorem C5_burst_witness :
    (10 ≤ ((cleanOldRequests (c5Limiter.requests (clientIp none (some "1.2.3.4"))) 1 60).filter
      (fun t => decide ((1 : ℚ) - t < 5))).length) ∧
    (((cleanOldRequests (cleanOldRequests (c5Limiter.requests (clientIp none (some "1.2.3.4"))) 1 60) 10 60).filter
      (fun t => decide ((10 : ℚ) - t < 5))).length < 10) ∧
    ((cleanOldRequests (cleanOldRequests (c5Limiter.requests (clientIp none (some "1.2.3.4"))) 1 60) 10 60).length < 30) ∧
    ((c5Limiter.check none (some "1.2.3.4") 1).2 = CheckResult.rejected 429 5 ∧
     (c5Limiter.check none (some "1.2.3.4") 1).1.requests (clientIp none (some "1.2.3.4")) =
       cleanOldRequests (c5Limiter.requests (clientIp none (some "1.2.3.4"))) 1 60 ∧
     ((c5Limiter.check none (some "1.2.3.4") 1).1.check none (some "1.2.3.4") 10).2 = CheckResult.allowed ∧
     ((c5Limiter.check none (some "1.2.3.4") 1).1.check none (some "1.2.3.4") 10).1.requests
         (clientIp none (some "1.2.3.4")) =
       cleanOldRequests (cleanOldRequests (c5Limiter.requests (clientIp none (some "1.2.3.4"))) 1 60) 10 60 ++ [10]) := by
  have h1 : (10 : Nat) ≤ ((cleanOldRequests (c5Limiter.requests (clientIp none (some "1.2.3.4"))) 1 60).filter
      (fun t => decide ((1 : ℚ) - t < 5))).length := by
    norm_num [c5Limiter, clientIp, hostIp, cleanOldRequests, List.replicate, List.filter]
  have h2 : (((cleanOldRequests (cleanOldRequests (c5Limiter.requests (clientIp none (some "1.2.3.4"))) 1 60) 10 60).filter
      (fun t => decide ((10 : ℚ) - t < 5))).length < 10) := by
    norm_num [c5Limiter, clientIp, hostIp, cleanOldRequests, List.replicate, List.filter]
  have h3 : ((cleanOldRequests (cleanOldRequests (c5Limiter.requests (clientIp none (some "1.2.3.4"))) 1 60) 10 60).length < 30) := by
    norm_num [c5Limiter, clientIp, hostIp, cleanOldRequests, List.replicate, List.filter]
  exact ⟨h1, h2, h3,
    C5_burst_rejected_then_recovers c5Limiter none (some "1.2.3.4") 1 10 rfl rfl h1 h2 h3⟩

/-- The forwarded header used to refute C10 as universally stated. -/
def c10Header : String := "1.2.3.4, 10.0.0.1"

/-- C10 counterexample: a request whose `X-Forwarded-For` header differs
from the socket address, yet for which `check` and `get_remaining`
derive the same client identifier — hence operate on the same window —
because `check` uses only the first comma-separated entry, stripped.
This falsifies the claim's universally quantified consequence. -/
theorem C10_counterexample :
    c10Header ≠ "1.2.3.4" ∧
    clientIp (some c10Header) (some "1.2.3.4") = "1.2.3.4" ∧
    hostIp (some "1.2.3.4") = "1.2.3.4" := by
  refine ⟨by decide, ?_, rfl⟩
  decide

/-- C10 (amended): `get_remaining` derives its client identifier from the
socket address only — its result and state change are independent of the
`X-Forwarded-For` header — while `check` uses the first comma-separated,
stripped entry of a non-empty header.  Whenever that stripped first entry
differs from the socket-derived identifier, the two methods read, prune
and mutate windows of different keys: `get_remaining` leaves `check`'s
window untouched and `check` leaves `get_remaining`'s window untouched. -/
theorem C10_get_remaining_ignores_forwarded_header (rl : RateLimiter) (f : String)
    (host : Option String) (now : ℚ)
    (hf : f ≠ "") (hdiff : forwardedIp f ≠ hostIp host) :
    clientIp (some f) host ≠ hostIp host ∧
    (∀ x y : Option String, rl.get_remaining x host now = rl.get_remaining y host now) ∧
    (rl.get_remaining (some f) host now).1.requests (clientIp (some f) host) =
      rl.requests (clientIp (some f) host) ∧
    (rl.check (some f) host now).1.requests (hostIp host) = rl.requests (hostIp host) := by
  have hip : clientIp (some f) host = forwardedIp f := by
    simp [clientIp, hf]
  have hne : ¬ (hostIp host = clientIp (some f) host) := by
    rw [hip]; exact fun h => hdiff h.symm
  refine ⟨by rw [hip]; exact hdiff, fun x y => rfl, ?_, ?_⟩
  · have hne' : ¬ (clientIp (some f) host = hostIp host) := by rw [hip]; exact hdiff
    simp [RateLimiter.get_remaining, RateLimiter.cleanOld, hne']
  · simp only [RateLimiter.check]
    split
    · simp [RateLimiter.cleanOld, hne]
    · split
      · simp [RateLimiter.cleanOld, hne]
      · simp [RateLimiter.cleanOld, hne]

/-- An empty limiter used in the C10 witness. -/
def c10Limiter : RateLimiter :=
  { requests_per_minute := 30, burst_limit := 10, requests := fun _ => [] }

/-- Witness for C10 (amended) at a concrete request: header `9.9.9.9`,
socket address `1.2.3.4`. -/
theorem C10_forwarded_header_witness :
    ("9.9.9.9" : String) ≠ "" ∧ forwardedIp "9.9.9.9" ≠ hostIp (some "1.2.3.4") ∧
    (clientIp (some "9.9.9.9") (some "1.2.3.4") ≠ hostIp (some "1.2.3.4") ∧
     (∀ x y : Option String,
       c10Limiter.get_remaining x (some "1.2.3.4") 0 = c10Limiter.get_remaining y (some "1.2.3.4") 0) ∧
     (c10Limiter.get_remaining (some "9.9.9.9") (some "1.2.3.4") 0).1.requests
         (clientIp (some "9.9.9.9") (some "1.2.3.4")) =
       c10Limiter.requests (clientIp (some "9.9.9.9") (some "1.2.3.4")) ∧
     (c10Limiter.check (some "9.9.9.9") (some "1.2.3.4") 0).1.requests (hostIp (some "1.2.3.4")) =
       c10Limiter.requests (hostIp (some "1.2.3.4"))) :=
  ⟨by decide, by decide,
   C10_get_remaining_ignores_forwarded_header c10Limiter "9.9.9.9" (some "1.2.3.4") 0
     (by decide) (by decide)⟩

/-!
## Places search service (`backend/services/places_api.py`) and store

The SQLite store is a `DB` value threaded explicitly.  The Google Maps
client is an `ApiEnv` of oracles; `Except.error e` stands for a raised
exception with message `e`.  `search_businesses` additionally returns a
log of the external calls it issued, each paired with the stored monthly
usage count at the instant the call was made (instrumentation only — it
does not influence any computed value).
-/

/-- Row of the `searches` table (`database.py`, class `Search`). -/
structure Search where
  id : Nat
  query : String
  location : String
  radius_km : Nat
  results_count : Nat
  created_at : Nat
deriving DecidableEq, Repr

/-- Row of the `api_usage` table (`database.py`, class `APIUsage`). -/
structure APIUsage where
  month : String
  call_count : Nat
  last_updated : Nat
deriving DecidableEq, Repr

/-- The relational store.  `next_search_id` / `next_business_id` model
the autoincrement counters the engine uses at commit time. -/
structure DB where
  searches : List Search := []
  businesses : List Business := []
  api_usage : List APIUsage := []
  next_search_id : Nat := 1
  next_business_id : Nat := 1
deriving DecidableEq, Repr

/-- A geocoding match: `geocode_result[i]["geometry"]["location"]`. -/
structure GeoLocation where
  lat : ℚ
  lng : ℚ
deriving DecidableEq, Repr

/-- One entry of the text-search response (`results["results"][i]`);
absent dictionary keys are `none`.  `lat`/`lng` flatten
`place.get("geometry", {}).get("location", {})`. -/
structure PlaceResult where
  place_id : Option String := none
  name : Option String := none
  formatted_address : Option String := none
  rating : Option ℚ := none
  user_ratings_total : Option Int := none
  types : List String := []
  lat : Option ℚ := none
  lng : Option ℚ := none
deriving DecidableEq, Repr

/-- The fields requested from the place-details call
(`details_response["result"]`). -/
structure PlaceDetails where
  formatted_phone_number : Option String := none
  website : Option String := none
  url : Option String := none
deriving DecidableEq, Repr

/-- The external Google Maps client: `client.geocode`, `client.places`
and `client.place` as oracles. -/
structure ApiEnv where
  geocode : String → Except String (List GeoLocation)
  places : String → ℚ × ℚ → Nat → Except String (List PlaceResult)
  place : Option String → Except String PlaceDetails

/-- The configuration the service reads (`app/config.py` is not part of
the sources; only `MONTHLY_API_LIMIT` is consulted here). -/
structure Settings where
  MONTHLY_API_LIMIT : Nat
deriving DecidableEq, Repr

/-- External calls, for the instrumentation log. -/
inductive ExtCall where
  | geocode (location : String) : ExtCall
  | places (query : String) : ExtCall
  | placeDetails (pid : Option String) : ExtCall
deriving DecidableEq, Repr

/-- The two exception classes of `places_api.py`. -/
inductive SearchError where
  | apiLimitExceeded (msg : String) : SearchError
  | placesError (msg : String) : SearchError
deriving DecidableEq, Repr

/-- `Except` to `Bool`: did the call succeed? -/
def exceptOk {ε α : Type} : Except ε α → Bool
  | Except.ok _ => true
  | Except.error _ => false

/-- Stored call count of a month: first matching `api_usage` row, else 0
(`_check_api_limit`, lines 34-40). -/
def usedCount (db : DB) (month : String) : Nat :=
  ((db.api_usage.find? (fun u => u.month == month)).map APIUsage.call_count).getD 0

/-- `PlacesService._check_api_limit`: `(current_count, limit)`. -/
def checkApiLimit (db : DB) (month : String) (limit : Nat) : Nat × Nat :=
  (usedCount db month, limit)

/-- Update the first row of the month in place (`usage.call_count += count`). -/
def bumpFirst (month : String) (now count : Nat) : List APIUsage → List APIUsage
  | [] => []
  | u :: us =>
    if u.month == month then
      { u with call_count := u.call_count + count, last_updated := now } :: us
    else
      u :: bumpFirst month now count us

/-- `PlacesService._increment_api_usage` (lines 42-54): bump the month's
row, creating it when absent. -/
def incrementApiUsage (db : DB) (month : String) (now : Nat) (count : Nat) : DB :=
  match db.api_usage.find? (fun u => u.month == month) with
  | some _ => { db with api_usage := bumpFirst month now count db.api_usage }
  | none => { db with api_usage := db.api_usage ++ [{ month := month, call_count := count, last_updated := now }] }

/-- Python `round(x, 1)` on our exact rationals: one decimal place. -/
def roundTo1 (q : ℚ) : ℚ := ((round (q * 10) : ℤ) : ℚ) / 10

/-- Body of `get_usage_stats` (lines 56-65). -/
structure UsageStats where
  month : String
  calls_used : Nat
  calls_limit : Nat
  calls_remaining : Nat
  percentage_used : ℚ
deriving DecidableEq, Repr

/-- `PlacesService.get_usage_stats`.  `max(0, limit - current)` is
truncated subtraction, which is exactly `Nat` subtraction. -/
def get_usage_stats (db : DB) (month : String) (limit : Nat) : UsageStats :=
  { month := month,
    calls_used := usedCount db month,
    calls_limit := limit,
    calls_remaining := limit - usedCount db month,
    percentage_used :=
      if 0 < limit then roundTo1 ((usedCount db month : ℚ) / (limit : ℚ) * 100) else 0 }

/-- The aggregate returned by `search_businesses` (lines 180-188). -/
structure SearchResponse where
  search_id : Nat
  query : String
  location : String
  radius_km : Nat
  total_results : Nat
  businesses : List (List (String × JVal))
  api_usage : UsageStats
deriving Repr

/-- Full outcome of a `search_businesses` call: final store, external
call log (with stored used-count at call time), and result or raised
exception. -/
structure SBOut where
  db : DB
  log : List (ExtCall × Nat)
  result : Except SearchError SearchResponse

/-- Mutable state of the per-result loop (lines 133-176): the session,
the accumulated `businesses` dictionaries, the local `current` counter
variable, and the call log. -/
structure LoopState where
  db : DB
  businesses : List (List (String × JVal))
  current : Nat
  log : List (ExtCall × Nat)

/-- The `Business(...)` constructor call of lines 162-174.  `id` stays
unset until commit; `phone`/`website` come from the fetched details when
present (`details.get(...) if details else None`). -/
def newBusiness (place : PlaceResult) (details : Option PlaceDetails) (sid now : Nat) : Business :=
  { id := none,
    place_id := place.place_id,
    name := place.name,
    address := place.formatted_address,
    phone := details.bind PlaceDetails.formatted_phone_number,
    website := details.bind PlaceDetails.website,
    rating := place.rating,
    review_count := place.user_ratings_total,
    business_types := some place.types,
    latitude := place.lat,
    longitude := place.lng,
    search_id := some sid,
    created_at := some now }

/-- `db.add(business)` followed by the final commit: the row is stored
with the next autoincrement id. -/
def insertBusiness (db : DB) (b : Business) : DB :=
  { db with businesses := db.businesses ++ [{ b with id := some db.next_business_id }],
            next_business_id := db.next_business_id + 1 }

/-- Tail of the new-place branch (lines 161-176): build the record, add
it to the session and append its dictionary (serialized before commit,
hence with `id = None`) to the response list. -/
def finishNew (st : LoopState) (place : PlaceResult) (details : Option PlaceDetails)
    (sid now : Nat) : LoopState :=
  let business := newBusiness place details sid now
  { st with db := insertBusiness st.db business,
            businesses := st.businesses ++ [business.to_dict] }

/-- One iteration of the result loop (lines 136-176): reuse an existing
record with the same `place_id`, else best-effort details fetch guarded
by `current + 2 < limit` (a successful fetch increments both the stored
counter and the local `current`), then persist the new record. -/
def processPlace (env : ApiEnv) (limit : Nat) (month : String) (now sid : Nat)
    (st : LoopState) (place : PlaceResult) : LoopState :=
  match st.db.businesses.find? (fun b => b.place_id == place.place_id) with
  | some existing =>
    { st with businesses := st.businesses ++ [existing.to_dict] }
  | none =>
    if st.current + 2 < limit then
      let log := st.log ++ [(ExtCall.placeDetails place.place_id, usedCount st.db month)]
      match env.place place.place_id with
      | Except.ok d =>
        finishNew { st with db := incrementApiUsage st.db month now 1,
                            current := st.current + 1, log := log } place (some d) sid now
      | Except.error _ =>
        finishNew { st with log := log } place none sid now
    else
      finishNew st place none sid now

/-- `PlacesService.search_businesses` (lines 67-188). -/
def search_businesses (env : ApiEnv) (settings : Settings) (month : String) (now : Nat)
    (db : DB) (query location : String) (radius_km max_results : Nat) : SBOut :=
  let (current, limit) := checkApiLimit db month settings.MONTHLY_API_LIMIT
  if limit ≤ current then
    { db := db, log := [],
      result := Except.error (SearchError.apiLimitExceeded
        ("Monthly API limit reached (" ++ toString current ++ "/" ++ toString limit ++
          "). Limit resets next month.")) }
  else
    let log := [(ExtCall.geocode location, usedCount db month)]
    match env.geocode location with
    | Except.error e =>
      { db := db, log := log,
        result := Except.error (SearchError.placesError ("Failed to geocode location: " ++ e)) }
    | Except.ok geocode_result =>
      let db := incrementApiUsage db month now 1
      match geocode_result with
      | [] =>
        { db := db, log := log,
          result := Except.error (SearchError.placesError ("Could not find location: " ++ location)) }
      | g :: _ =>
        let search_query := query ++ " in " ++ location
        let radius_meters := radius_km * 1000
        let log := log ++ [(ExtCall.places search_query, usedCount db month)]
        match env.places search_query (g.lat, g.lng) radius_meters with
        | Except.error e =>
          { db := db, log := log,
            result := Except.error (SearchError.placesError ("Places search failed: " ++ e)) }
        | Except.ok results =>
          let db := incrementApiUsage db month now 1
          let sid := db.next_search_id
          let newSearch : Search :=
            { id := sid, query := query, location := location, radius_km := radius_km,
              results_count := results.length, created_at := now }
          let db := { db with searches := db.searches ++ [newSearch],
                              next_search_id := db.next_search_id + 1 }
          let places_to_process := results.take max_results
          let st := places_to_process.foldl (processPlace env limit month now sid)
            { db := db, businesses := [], current := current, log := log }
          { db := st.db, log := st.log,
            result := Except.ok
              { search_id := sid, query := query, location := location, radius_km := radius_km,
                total_results := st.businesses.length, businesses := st.businesses,
                api_usage := get_usage_stats st.db month limit } }

/-- Businesses of a successful result (empty on error). -/
def resultBusinesses : Except SearchError SearchResponse → List (List (String × JVal))
  | Except.ok r => r.businesses
  | Except.error _ => []

/-- `bumpFirst` adds `count` to the first matching row, as seen through
`find?`. -/
theorem find?_bumpFirst (month : String) (now count : Nat) (l : List APIUsage) :
    (bumpFirst month now count l).find? (fun u => u.month == month) =
      (l.find? (fun u => u.month == month)).map
        (fun u => { u with call_count := u.call_count + count, last_updated := now }) := by
  induction l with
  | nil => rfl
  | cons u us ih =>
    by_cases h : u.month = month
    · simp [bumpFirst, h]
    · simp [bumpFirst, h, ih]

/-- Incrementing the month's counter adds exactly `count` to the stored
used count of that month. -/
theorem usedCount_incrementApiUsage (db : DB) (month : String) (now count : Nat) :
    usedCount (incrementApiUsage db month now count) month = usedCount db month + count := by
  unfold incrementApiUsage
  cases h : db.api_usage.find? (fun u => u.month == month) with
  | none =>
    simp only [usedCount]
    rw [List.find?_append, h]
    simp [usedCount, h]
  | some u =>
    simp [usedCount, find?_bumpFirst, h]

/-- `_increment_api_usage` touches only the `api_usage` table. -/
theorem searches_incrementApiUsage (db : DB) (month : String) (now count : Nat) :
    (incrementApiUsage db month now count).searches = db.searches := by
  unfold incrementApiUsage
  cases db.api_usage.find? (fun u => u.month == month) <;> rfl

/-- `_increment_api_usage` does not touch the businesses table. -/
theorem businesses_incrementApiUsage (db : DB) (month : String) (now count : Nat) :
    (incrementApiUsage db month now count).businesses = db.businesses := by
  unfold incrementApiUsage
  cases db.api_usage.find? (fun u => u.month == month) <;> rfl

/-- `_increment_api_usage` keeps the autoincrement counters. -/
theorem nextSearchId_incrementApiUsage (db : DB) (month : String) (now count : Nat) :
    (incrementApiUsage db month now count).next_search_id = db.next_search_id := by
  unfold incrementApiUsage
  cases db.api_usage.find? (fun u => u.month == month) <;> rfl

/-- Inserting a business row leaves the usage counters unchanged. -/
theorem usedCount_insertBusiness (db : DB) (b : Business) (month : String) :
    usedCount (insertBusiness db b) month = usedCount db month := rfl

/-- Inserting a business row leaves the searches table unchanged. -/
theorem searches_insertBusiness (db : DB) (b : Business) :
    (insertBusiness db b).searches = db.searches := rfl

/-- C3: if the stored usage of the current month has reached the
configured monthly limit, `search_businesses` raises `APILimitExceeded`
with the source's message, makes zero external calls (empty call log)
and returns the store exactly as it was (in particular the usage counter
is unchanged). -/
theorem C3_quota_gate_blocks_all_calls (env : ApiEnv) (settings : Settings) (month : String)
    (now : Nat) (db : DB) (query location : String) (radius_km max_results : Nat)
    (h : settings.MONTHLY_API_LIMIT ≤ usedCount db month) :
    search_businesses env settings month now db query location radius_km max_results =
      { db := db, log := [],
        result := Except.error (SearchError.apiLimitExceeded
          ("Monthly API limit reached (" ++ toString (usedCount db month) ++ "/" ++
            toString settings.MONTHLY_API_LIMIT ++ "). Limit resets next month.")) } := by
  simp [search_businesses, checkApiLimit, h]

/-- A store whose `2024-01` usage row is at the limit used below. -/
def c3Db : DB := { api_usage := [{ month := "2024-01", call_count := 2, last_updated := 0 }] }

/-- An external client whose every call fails; the quota gate must
return before any of these could be consulted. -/
def stubEnv : ApiEnv :=
  { geocode := fun _ => Except.error "stub",
    places := fun _ _ _ => Except.error "stub",
    place := fun _ => Except.error "stub" }

/-- Witness for C3 with limit 2 and two calls already used. -/
theorem C3_quota_gate_witness :
    (Settings.mk 2).MONTHLY_API_LIMIT ≤ usedCount c3Db "2024-01" ∧
    search_businesses stubEnv (Settings.mk 2) "2024-01" 5 c3Db "dentists" "Cape Town" 10 10 =
      { db := c3Db, log := [],
        result := Except.error (SearchError.apiLimitExceeded
          ("Monthly API limit reached (" ++ toString (usedCount c3Db "2024-01") ++ "/" ++
            toString (Settings.mk 2).MONTHLY_API_LIMIT ++ "). Limit resets next month.")) } :=
  ⟨by decide,
   C3_quota_gate_blocks_all_calls stubEnv (Settings.mk 2) "2024-01" 5 c3Db "dentists"
     "Cape Town" 10 10 (by decide)⟩

/-- C4: when a search result's place identifier already has a stored
record, the loop body reuses that record: the store is returned exactly
as it was (no second `Business` row, so `place_id` stays unique, and no
quota increment), the call log is unchanged (no details fetch), and the
serialization of the stored record — its stored fields unchanged — is
what is appended to the response. -/
theorem C4_dedup_reuses_existing (env : ApiEnv) (limit : Nat) (month : String) (now sid : Nat)
    (st : LoopState) (place : PlaceResult) (existing : Business)
    (h : st.db.businesses.find? (fun b => b.place_id == place.place_id) = some existing) :
    processPlace env limit month now sid st place =
      { st with businesses := st.businesses ++ [existing.to_dict] } := by
  simp [processPlace, h]

/-- The stored record reused in the C4 witness. -/
def c4Existing : Business :=
  { id := some 7, place_id := some "p1", name := some "Cafe A",
    website := some "https://cafe-a.example", search_id := some 1, created_at := some 3 }

/-- Loop state holding one stored business and a used budget of 0. -/
def c4State : LoopState :=
  { db := { businesses := [c4Existing], next_business_id := 8 },
    businesses := [], current := 0, log := [] }

/-- The incoming search result carrying the already-known identifier. -/
def c4Place : PlaceResult :=
  { place_id := some "p1", name := some "Cafe A (fresh copy)" }

/-- Witness for C4 at a concrete store and result. -/
theorem C4_dedup_witness :
    c4State.db.businesses.find? (fun b => b.place_id == c4Place.place_id) = some c4Existing ∧
    processPlace stubEnv 100 "2024-01" 9 3 c4State c4Place =
      { c4State with businesses := c4State.businesses ++ [c4Existing.to_dict] } :=
  ⟨by decide,
   C4_dedup_reuses_existing stubEnv 100 "2024-01" 9 3 c4State c4Place c4Existing (by decide)⟩

/-- C2 (amended): inside the result loop the details fetch is guarded by
`current + 2 < limit`, where `current` is the count read before the
geocode and text-search increments, plus successful fetches so far; under
the loop invariant `usedCount db month = current + 2` (established right
after those two increments and preserved below) this is equivalent to
`usedCount db month < limit` — i.e. the fetch is attempted exactly when
the stored headroom is at least 1, not when it exceeds 2.  A fetch
consumes 1 quota unit only when the external call succeeds, and the
invariant is preserved by the iteration. -/
theorem C2_details_guard_is_stale_counter (env : ApiEnv) (limit : Nat) (month : String)
    (now sid : Nat) (st : LoopState) (place : PlaceResult)
    (hinv : usedCount st.db month = st.current + 2)
    (hnew : st.db.businesses.find? (fun b => b.place_id == place.place_id) = none) :
    ((processPlace env limit month now sid st place).log = st.log ++
      (if usedCount st.db month < limit then
        [(ExtCall.placeDetails place.place_id, usedCount st.db month)] else [])) ∧
    (usedCount (processPlace env limit month now sid st place).db month =
      if usedCount st.db month < limit ∧ exceptOk (env.place place.place_id) = true then
        usedCount st.db month + 1
      else usedCount st.db month) ∧
    (usedCount (processPlace env limit month now sid st place).db month =
      (processPlace env limit month now sid st place).current + 2) := by
  by_cases hle : usedCount st.db month < limit
  · have hc : st.current + 2 < limit := by omega
    cases hpd : env.place place.place_id with
    | ok d =>
      simp [processPlace, hnew, hc, hpd, hle, finishNew, exceptOk,
        usedCount_insertBusiness, usedCount_incrementApiUsage, hinv]
    | error e =>
      simp [processPlace, hnew, hc, hpd, hle, finishNew, exceptOk,
        usedCount_insertBusiness, hinv]
  · have hc : ¬ (st.current + 2 < limit) := by omega
    simp [processPlace, hnew, hc, hle, finishNew, usedCount_insertBusiness, hinv]

/-- External client for the C2 scenario: one geocoding match, one search
result, and a details call that succeeds. -/
def c2Env : ApiEnv :=
  { geocode := fun _ => Except.ok [{ lat := 0, lng := 0 }],
    places := fun _ _ _ => Except.ok [{ place_id := some "p1", name := some "Dentist A" }],
    place := fun _ => Except.ok
      { formatted_phone_number := some "+27 21 000 0000",
        website := some "https://dentist-a.example", url := some "maps/p1" } }

/-- C2 counterexample: with a monthly limit of 3 and a fresh store, the
run has already consumed 2 units (geocode and text search) when the only
result is processed, so the remaining headroom at that moment is 1 — not
more than 2 — yet the details fetch is attempted (and consumes the third
unit): the claimed "if and only if headroom exceeds 2 units" is false on
the code.  The log entry records the stored used count (2) at the moment
of the details call. -/
theorem C2_counterexample_headroom_one :
    (ExtCall.placeDetails (some "p1"), 2) ∈
      (search_businesses c2Env (Settings.mk 3) "2024-01" 0 {} "dentists" "Cape Town" 10 10).log ∧
    ¬ ((3 : Nat) - 2 > 2) := by
  constructor
  · decide
  · decide

/-- Loop state for the C2 witness: stored usage 2, local counter 0
(the state right after the geocode and search increments). -/
def c2State : LoopState :=
  { db := { api_usage := [{ month := "2024-01", call_count := 2, last_updated := 0 }] },
    businesses := [], current := 0, log := [] }

/-- The new place processed in the C2 witness. -/
def c2Place : PlaceResult := { place_id := some "p1", name := some "Dentist A" }

/-- Witness for C2 (amended): limit 3, stored usage 2 (headroom 1): the
fetch is attempted, logged against used count 2, and consumes one unit. -/
theorem C2_details_guard_witness :
    usedCount c2State.db "2024-01" = c2State.current + 2 ∧
    c2State.db.businesses.find? (fun b => b.place_id == c2Place.place_id) = none ∧
    (((processPlace c2Env 3 "2024-01" 0 1 c2State c2Place).log = c2State.log ++
      (if usedCount c2State.db "2024-01" < 3 then
        [(ExtCall.placeDetails c2Place.place_id, usedCount c2State.db "2024-01")] else [])) ∧
     (usedCount (processPlace c2Env 3 "2024-01" 0 1 c2State c2Place).db "2024-01" =
      if usedCount c2State.db "2024-01" < 3 ∧ exceptOk (c2Env.place c2Place.place_id) = true then
        usedCount c2State.db "2024-01" + 1
      else usedCount c2State.db "2024-01") ∧
     (usedCount (processPlace c2Env 3 "2024-01" 0 1 c2State c2Place).db "2024-01" =
      (processPlace c2Env 3 "2024-01" 0 1 c2State c2Place).current + 2)) :=
  ⟨by decide, by decide,
   C2_details_guard_is_stale_counter c2Env 3 "2024-01" 0 1 c2State c2Place
     (by decide) (by decide)⟩

/-- The serialized dictionary always carries the record's `place_id`. -/
theorem lookup_to_dict_place_id (b : Business) :
    b.to_dict.lookup "place_id" = some (optStr b.place_id) := rfl

/-- Each loop iteration appends exactly one dictionary, carrying the
processed result's `place_id`, and never touches the searches table. -/
theorem processPlace_snapshot (env : ApiEnv) (limit : Nat) (month : String) (now sid : Nat)
    (st : LoopState) (place : PlaceResult) :
    ∃ d, (processPlace env limit month now sid st place).businesses = st.businesses ++ [d] ∧
      d.lookup "place_id" = some (optStr place.place_id) ∧
      (processPlace env limit month now sid st place).db.searches = st.db.searches := by
  cases h : st.db.businesses.find? (fun b => b.place_id == place.place_id) with
  | some existing =>
    have hp := List.find?_some h
    have heq : existing.place_id = place.place_id := by simpa using hp
    exact ⟨existing.to_dict, by simp [processPlace, h],
      by rw [lookup_to_dict_place_id, heq], by simp [processPlace, h]⟩
  | none =>
    by_cases hc : st.current + 2 < limit
    · cases hpd : env.place place.place_id with
      | ok d0 =>
        refine ⟨(newBusiness place (some d0) sid now).to_dict, ?_, lookup_to_dict_place_id _, ?_⟩
        · simp [processPlace, h, hc, hpd, finishNew]
        · simp [processPlace, h, hc, hpd, finishNew, insertBusiness,
            searches_incrementApiUsage]
      | error e =>
        refine ⟨(newBusiness place none sid now).to_dict, ?_, lookup_to_dict_place_id _, ?_⟩
        · simp [processPlace, h, hc, hpd, finishNew]
        · simp [processPlace, h, hc, hpd, finishNew, insertBusiness]
    · refine ⟨(newBusiness place none sid now).to_dict, ?_, lookup_to_dict_place_id _, ?_⟩
      · simp [processPlace, h, hc, finishNew]
      · simp [processPlace, h, hc, finishNew, insertBusiness]

/-- Over the whole loop: the searches table is untouched, and the
response dictionaries line up one-to-one, in order, with the processed
results' place identifiers. -/
theorem foldl_processPlace_spec (env : ApiEnv) (limit : Nat) (month : String) (now sid : Nat)
    (places : List PlaceResult) (st : LoopState) :
    (places.foldl (processPlace env limit month now sid) st).db.searches = st.db.searches ∧
    (places.foldl (processPlace env limit month now sid) st).businesses.map
        (fun d => d.lookup "place_id") =
      st.businesses.map (fun d => d.lookup "place_id") ++
        places.map (fun p => some (optStr p.place_id)) := by
  induction places generalizing st with
  | nil => simp
  | cons p ps ih =>
    obtain ⟨d, hbus, hd, hsea⟩ := processPlace_snapshot env limit month now sid st p
    obtain ⟨ih1, ih2⟩ := ih (processPlace env limit month now sid st p)
    constructor
    · rw [List.foldl_cons, ih1, hsea]
    · rw [List.foldl_cons, ih2, hbus]
      simp [hd]

/-- C7: when a search passes the quota gate and both external calls
succeed, exactly one `Search` row is appended, its `results_count` being
the raw number of text-search results before truncation to
`max_results`; the call succeeds; and the response's business
dictionaries correspond one-to-one, in the external order, with the
truncated result list (witnessed by their `place_id` fields) — nothing
is re-sorted. -/
theorem C7_search_record_and_ordering (env : ApiEnv) (settings : Settings) (month : String)
    (now : Nat) (db : DB) (query location : String) (radius_km max_results : Nat)
    (g : GeoLocation) (gs : List GeoLocation) (results : List PlaceResult)
    (husage : usedCount db month < settings.MONTHLY_API_LIMIT)
    (hg : env.geocode location = Except.ok (g :: gs))
    (hp : env.places (query ++ " in " ++ location) (g.lat, g.lng) (radius_km * 1000) =
      Except.ok results) :
    (search_businesses env settings month now db query location radius_km max_results).db.searches =
      db.searches ++ [{ id := db.next_search_id, query := query, location := location,
                        radius_km := radius_km, results_count := results.length,
                        created_at := now }] ∧
    exceptOk (search_businesses env settings month now db query location radius_km max_results).result = true ∧
    (resultBusinesses
        (search_businesses env settings month now db query location radius_km max_results).result).map
        (fun d => d.lookup "place_id") =
      (results.take max_results).map (fun p => some (optStr p.place_id)) := by
  have hnot : ¬ (settings.MONTHLY_API_LIMIT ≤ usedCount db month) := by omega
  simp only [search_businesses, checkApiLimit, hg, hp, hnot, if_false]
  refine ⟨?_, ?_, ?_⟩
  · rw [(foldl_processPlace_spec _ _ _ _ _ _ _).1]
    simp [searches_incrementApiUsage, nextSearchId_incrementApiUsage]
  · simp [exceptOk]
  · simp only [resultBusinesses]
    rw [(foldl_processPlace_spec _ _ _ _ _ _ _).2]
    simp

/-- External client for the C7 witness: one geocoding match, three
results, details calls offline (the best-effort fetch fails, which must
not disturb record creation or ordering). -/
def c7Env : ApiEnv :=
  { geocode := fun _ => Except.ok [GeoLocation.mk 0 0],
    places := fun _ _ _ => Except.ok
      [{ place_id := some "a" }, { place_id := some "b" }, { place_id := some "c" }],
    place := fun _ => Except.error "offline" }

/-- Witness for C7: three raw results truncated to `max_results = 2`;
the search row records 3, the response lists `a` then `b`. -/
theorem C7_search_record_witness :
    usedCount {} "2024-01" < (Settings.mk 100).MONTHLY_API_LIMIT ∧
    c7Env.geocode "CT" = Except.ok [GeoLocation.mk 0 0] ∧
    c7Env.places ("dentists" ++ " in " ++ "CT") ((GeoLocation.mk 0 0).lat, (GeoLocation.mk 0 0).lng)
      (10 * 1000) = Except.ok
        [{ place_id := some "a" }, { place_id := some "b" }, { place_id := some "c" }] ∧
    ((search_businesses c7Env (Settings.mk 100) "2024-01" 0 {} "dentists" "CT" 10 2).db.searches =
      ({} : DB).searches ++ [{ id := ({} : DB).next_search_id, query := "dentists", location := "CT",
                               radius_km := 10, results_count := ([{ place_id := some "a" },
                                 { place_id := some "b" },
                                 { place_id := some "c" }] : List PlaceResult).length,
                               created_at := 0 }] ∧
     exceptOk (search_businesses c7Env (Settings.mk 100) "2024-01" 0 {} "dentists" "CT" 10 2).result = true ∧
     (resultBusinesses
        (search_businesses c7Env (Settings.mk 100) "2024-01" 0 {} "dentists" "CT" 10 2).result).map
        (fun d => d.lookup "place_id") =
      (([{ place_id := some "a" }, { place_id := some "b" },
         { place_id := some "c" }] : List PlaceResult).take 2).map
        (fun p => some (optStr p.place_id))) :=
  ⟨by decide, rfl, rfl,
   C7_search_record_and_ordering c7Env (Settings.mk 100) "2024-01" 0 {} "dentists" "CT" 10 2
     (GeoLocation.mk 0 0) [] _ (by decide) rfl rfl⟩

/-!
## Query endpoints (`backend/app/routers/businesses.py`)

`list_businesses` builds a filter chain guarded by Python truthiness,
counts, then orders by rating descending with nulls last and paginates;
the SQL `ORDER BY` is modelled as an insertion sort under that order.
-/

/-- Truthiness of the optional `search_id` parameter: `if search_id:`
is false for both `None` and `0`. -/
def truthyNat : Option Nat → Bool
  | none => false
  | some n => n != 0

/-- Truthiness of the optional `min_rating` parameter: `if min_rating:`
is false for both `None` and `0.0`. -/
def truthyRat : Option ℚ → Bool
  | none => false
  | some q => decide (q ≠ 0)

/-- `Business.website.isnot(None), Business.website != ""`. -/
def hasWebsite (b : Business) : Bool :=
  match b.website with
  | some w => w != ""
  | none => false

/-- The filter chain of `list_businesses` (lines 29-41).  A SQL
comparison with a `NULL` rating is not true, so `rating >= min_rating`
drops null-rating rows when the filter is applied. -/
def filteredBusinesses (db : DB) (search_id : Option Nat) (has_website : Option Bool)
    (min_rating : Option ℚ) : List Business :=
  let q := db.businesses
  let q := if truthyNat search_id then q.filter (fun b => b.search_id == search_id) else q
  let q := match has_website with
    | none => q
    | some true => q.filter hasWebsite
    | some false => q.filter (fun b => !hasWebsite b)
  if truthyRat min_rating then
    q.filter (fun b => match b.rating, min_rating with
      | some r, some m => decide (m ≤ r)
      | _, _ => false)
  else q

/-- Sort key of `Business.rating.desc().nullslast()`: a null rating is
the bottom element. -/
def ratingKey (b : Business) : WithBot ℚ :=
  match b.rating with
  | some r => (r : WithBot ℚ)
  | none => ⊥

/-- The ordering of the listing: higher rating first, nulls last. -/
def ratingDesc (a b : Business) : Prop := ratingKey b ≤ ratingKey a

instance : DecidableRel ratingDesc := fun a b =>
  inferInstanceAs (Decidable (ratingKey b ≤ ratingKey a))

instance : IsTotal Business ratingDesc :=
  ⟨fun a b => le_total (ratingKey b) (ratingKey a)⟩

instance : IsTrans Business ratingDesc :=
  ⟨fun _ _ _ hab hbc => le_trans hbc hab⟩

/-- The page of rows: order, then `offset`, then `limit` (line 44). -/
def businessPage (db : DB) (search_id : Option Nat) (has_website : Option Bool)
    (min_rating : Option ℚ) (limit offset : Nat) : List Business :=
  ((List.insertionSort ratingDesc (filteredBusinesses db search_id has_website min_rating)).drop
    offset).take limit

/-- The JSON body returned by `list_businesses` (lines 46-51). -/
structure BusinessListResponse where
  total : Nat
  limit : Nat
  offset : Nat
  businesses : List (List (String × JVal))
deriving Repr

/-- `list_businesses` (lines 11-51): `total` is the filtered count taken
before pagination. -/
def list_businesses (db : DB) (search_id : Option Nat) (has_website : Option Bool)
    (min_rating : Option ℚ) (limit offset : Nat) : BusinessListResponse :=
  { total := (filteredBusinesses db search_id has_website min_rating).length,
    limit := limit, offset := offset,
    businesses := (businessPage db search_id has_website min_rating limit offset).map
      Business.to_dict }

/-- The JSON body of `stats/summary` (lines 73-78). -/
structure StatsResponse where
  total_businesses : Nat
  with_website : Nat
  without_website : Nat
  website_percentage : ℚ
deriving Repr

/-- `get_stats` (lines 63-78): the percentage is guarded by
`if total > 0`. -/
def get_stats (db : DB) : StatsResponse :=
  let total := db.businesses.length
  let with_website := (db.businesses.filter hasWebsite).length
  { total_businesses := total,
    with_website := with_website,
    without_website := total - with_website,
    website_percentage :=
      if 0 < total then roundTo1 (((with_website : ℚ) / (total : ℚ)) * 100) else 0 }

/-- When businesses are stored, the percentage is the rounded ratio. -/
theorem get_stats_percentage_pos (db : DB) (h : 0 < db.businesses.length) :
    (get_stats db).website_percentage =
      roundTo1 ((((db.businesses.filter hasWebsite).length : ℚ) /
        (db.businesses.length : ℚ)) * 100) := by
  simp [get_stats, h]

/-- C6: a listing page holds at most `limit` businesses; the response
echoes the given `limit` and `offset`; `total` is the full filtered
count before pagination, the same whatever `limit` and `offset` are
used; and the page is sorted by rating descending with null ratings
last, the serialized list being exactly that page. -/
theorem C6_pagination_and_ordering (db : DB) (search_id : Option Nat)
    (has_website : Option Bool) (min_rating : Option ℚ) (limit offset : Nat) :
    (list_businesses db search_id has_website min_rating limit offset).businesses.length ≤ limit ∧
    (list_businesses db search_id has_website min_rating limit offset).limit = limit ∧
    (list_businesses db search_id has_website min_rating limit offset).offset = offset ∧
    (list_businesses db search_id has_website min_rating limit offset).total =
      (filteredBusinesses db search_id has_website min_rating).length ∧
    (∀ limit' offset' : Nat,
      (list_businesses db search_id has_website min_rating limit' offset').total =
        (list_businesses db search_id has_website min_rating limit offset).total) ∧
    List.Sorted ratingDesc (businessPage db search_id has_website min_rating limit offset) ∧
    (list_businesses db search_id has_website min_rating limit offset).businesses =
      (businessPage db search_id has_website min_rating limit offset).map Business.to_dict := by
  refine ⟨?_, rfl, rfl, rfl, fun limit' offset' => rfl, ?_, rfl⟩
  · simp only [list_businesses, businessPage, List.length_map, List.length_take]
    omega
  · have hs : List.Sorted ratingDesc
        (List.insertionSort ratingDesc (filteredBusinesses db search_id has_website min_rating)) :=
      List.sorted_insertionSort ratingDesc _
    exact List.Pairwise.sublist ((List.take_sublist _ _).trans (List.drop_sublist _ _)) hs

/-- Four stored businesses, three with a non-empty website; the fourth
has the empty string, which counts as absent. -/
def c8Db : DB :=
  { businesses :=
      [{ id := some 1, name := some "A", website := some "https://a.example" },
       { id := some 2, name := some "B", website := some "https://b.example" },
       { id := some 3, name := some "C", website := some "https://c.example" },
       { id := some 4, name := some "D", website := some "" }] }

/-- C8: `stats_summary` never divides by zero — with no stored
businesses the percentage is the literal 0 — and with businesses stored
it is the proportion of non-empty websites (null or empty-string
counting as absent), rounded to one decimal: 3 of 4 gives 75.0. -/
theorem C8_stats_percentage_safe :
    (∀ db : DB, db.businesses.length = 0 → (get_stats db).website_percentage = 0) ∧
    (∀ db : DB, 0 < db.businesses.length → (get_stats db).website_percentage =
      roundTo1 ((((db.businesses.filter hasWebsite).length : ℚ) /
        (db.businesses.length : ℚ)) * 100)) ∧
    (get_stats c8Db).total_businesses = 4 ∧
    (get_stats c8Db).with_website = 3 ∧
    (get_stats c8Db).without_website = 1 ∧
    (get_stats c8Db).website_percentage = 75 := by
  refine ⟨fun db h => by simp [get_stats, h], get_stats_percentage_pos, by decide, by decide,
    by decide, ?_⟩
  have h2 := get_stats_percentage_pos c8Db (by decide)
  have hl : (c8Db.businesses.filter hasWebsite).length = 3 := by decide
  have ht : c8Db.businesses.length = 4 := by decide
  rw [h2, hl, ht]
  norm_num [roundTo1, round_eq]

/-- Witness for C8: the empty store and the 3-of-4 store. -/
theorem C8_stats_witness :
    (({} : DB).businesses.length = 0 ∧ (get_stats {}).website_percentage = 0) ∧
    (0 < c8Db.businesses.length ∧ (get_stats c8Db).website_percentage =
      roundTo1 ((((c8Db.businesses.filter hasWebsite).length : ℚ) /
        (c8Db.businesses.length : ℚ)) * 100)) :=
  ⟨⟨rfl, C8_stats_percentage_safe.1 {} rfl⟩,
   ⟨by decide, C8_stats_percentage_safe.2.1 c8Db (by decide)⟩⟩

/-- A stored business with a null rating and a non-zero owning search. -/
def c9NullRating : Business :=
  { id := some 1, place_id := some "n1", name := some "No rating yet",
    rating := none, search_id := some 4 }

/-- A store holding only `c9NullRating`. -/
def c9Db : DB := { businesses := [c9NullRating] }

/-- C9: supplying `search_id = 0` and `min_rating = 0.0` leaves both
filters unapplied — the listing is identical to passing no filters at
all — because the guards test truthiness, and `0`/`0.0` are falsy; in
particular a business with a null rating is still returned under
`min_rating = 0.0`, although the applied filter would have dropped it. -/
theorem C9_zero_filter_values_ignored :
    (∀ (db : DB) (has_website : Option Bool) (limit offset : Nat),
      list_businesses db (some 0) has_website (some 0) limit offset =
        list_businesses db none has_website none limit offset) ∧
    (list_businesses c9Db (some 0) none (some 0) 50 0).businesses = [c9NullRating.to_dict] ∧
    (c9Db.businesses.filter (fun b => match b.rating, (some (0 : ℚ) : Option ℚ) with
      | some r, some m => decide (m ≤ r)
      | _, _ => false)) = [] := by
  have h1 : truthyNat (some 0) = false := by simp [truthyNat]
  have h2 : truthyRat (some 0) = false := by simp [truthyRat]
  refine ⟨fun db hw limit offset => ?_, ?_, ?_⟩
  · simp [list_businesses, businessPage, filteredBusinesses, h1, h2, truthyNat, truthyRat]
  · simp [list_businesses, businessPage, filteredBusinesses, h1, h2, c9Db,
      List.insertionSort, List.orderedInsert]
  · simp [c9Db, c9NullRating, List.filter]
